import Mathlib

/-!
Shallow embedding of the wapp WhatsApp bridge (src/index.js) and proofs of
the specification claims about it.  Pure fragments of the JavaScript are
translated into executable Lean definitions; external collaborators (the
Baileys protocol client, node-schedule, date-fns-tz, socket.io) are passed
in as explicit oracles or recorded as effects in a trace.
-/

namespace Wapp

/-- Decidable equality for Except, used by the derived instances below. -/
instance instDecEqExcept {ε α : Type} [DecidableEq ε] [DecidableEq α] :
    DecidableEq (Except ε α) := fun a b =>
  match a, b with
  | .ok x, .ok y => if h : x = y then .isTrue (by rw [h]) else .isFalse (by simp [h])
  | .error x, .error y => if h : x = y then .isTrue (by rw [h]) else .isFalse (by simp [h])
  | .ok _, .error _ => .isFalse (by simp)
  | .error _, .ok _ => .isFalse (by simp)

/-- The user sub-record of the connection status (src/index.js line 150):
the raw id, the (possibly missing) display name, and the derived number. -/
structure UserInfo where
  id : String
  name : Option String
  number : String
deriving Repr, DecidableEq

/-- The process-wide connection status record (src/index.js lines 34-39). -/
structure ConnectionStatus where
  connected : Bool
  message : String
  user : Option UserInfo
  qr : Option String
deriving Repr, DecidableEq

/-- Model of JS list-of-characters prefix and containment, used to embed
String.prototype.includes: containsChars needle hay decides whether needle
occurs as a contiguous substring of hay. -/
def containsChars (needle : List Char) : List Char → Bool
  | [] => needle.isPrefixOf []
  | c :: t => needle.isPrefixOf (c :: t) || containsChars needle t

/-- Embed of number.includes of the WhatsApp domain suffix (src/index.js line 48). -/
def includesWaDomain (s : String) : Bool :=
  containsChars "@s.whatsapp.net".data s.data

/-- Recipient normalization into JID form (src/index.js line 48): the number is
left unchanged when it already mentions the domain, otherwise suffixed. -/
def toJid (number : String) : String :=
  if includesWaDomain number then number else number ++ "@s.whatsapp.net"

/-- Embed of id.split at the first at-sign then at the first colon, taking the
head piece each time (src/index.js line 146): strips server and device id. -/
def deriveNumber (id : String) : String :=
  ⟨(id.data.takeWhile fun c => c ≠ '@').takeWhile fun c => c ≠ ':'⟩

/-- One element of the array returned by sock.onWhatsApp (src/index.js line 49);
only the existence flag is consulted. -/
structure WaQueryResult where
  waExists : Bool
deriving Repr, DecidableEq

/-- One call to sock.sendMessage, recorded in the dispatch trace. -/
structure DispatchCall where
  jid : String
  text : String
deriving Repr, DecidableEq

/-- The errors sendMessage can raise (src/index.js lines 46 and 51), plus a
transport error propagated unchanged from the protocol client. -/
inductive SendError where
  | notConnected
  | unknownRecipient (number : String)
  | transport (e : String)
deriving Repr, DecidableEq

/-- Result of a sendMessage call together with the trace of dispatch calls. -/
structure SendOutcome where
  result : Except SendError Unit
  dispatches : List DispatchCall
deriving Repr, DecidableEq

/-- Oracle for the protocol client handle: the onWhatsApp existence lookup and
the outcome of a dispatch through sock.sendMessage. -/
structure Sock where
  onWhatsApp : String → List WaQueryResult
  dispatchResult : String → String → Except String Unit

/-- Embed of sendMessage (src/index.js lines 44-54): guard on handle and
status, normalize the recipient, query existence, then dispatch once. -/
def sendMessage (sock : Option Sock) (connectionStatus : ConnectionStatus)
    (number message : String) : SendOutcome :=
  match sock with
  | none => ⟨.error .notConnected, []⟩
  | some s =>
    if !connectionStatus.connected then ⟨.error .notConnected, []⟩
    else
      let jid := toJid number
      match (s.onWhatsApp jid).head? with
      | none => ⟨.error (.unknownRecipient number), []⟩
      | some r =>
        if !r.waExists then ⟨.error (.unknownRecipient number), []⟩
        else
          match s.dispatchResult jid message with
          | .ok _ => ⟨.ok (), [⟨jid, message⟩]⟩
          | .error e => ⟨.error (.transport e), [⟨jid, message⟩]⟩

/-- The initial status record (src/index.js lines 34-39). -/
def initialStatus : ConnectionStatus :=
  ⟨false, "Initializing...", none, none⟩

/-- The status assigned at the start of a connection attempt (src/index.js line 96). -/
def connectingStatus : ConnectionStatus :=
  ⟨false, "Connecting to WhatsApp...", none, none⟩

/-- The status assigned on a transient close (src/index.js line 137). -/
def reconnectStatus : ConnectionStatus :=
  ⟨false, "Connection lost. Reconnecting...", none, none⟩

/-- The status assigned when a QR data URL was generated (src/index.js line 123). -/
def qrSuccessStatus (url : String) : ConnectionStatus :=
  ⟨false, "QR code received. Please scan.", none, some url⟩

/-- The status update on a QR generation error (src/index.js line 120): a spread
of the previous record with only the message replaced. -/
def qrErrorUpdate (connectionStatus : ConnectionStatus) : ConnectionStatus :=
  { connectionStatus with message := "Error generating QR code." }

/-- The status update in handleLogoutAndRestart (src/index.js line 78): a spread
of the previous record with message and qr replaced. -/
def logoutStatusUpdate (connectionStatus : ConnectionStatus) : ConnectionStatus :=
  { connectionStatus with message := "Session ended. Restarting...", qr := none }

/-- The status assigned when the connection opens (src/index.js lines 147-152). -/
def openStatus (id : String) (name : Option String) : ConnectionStatus :=
  ⟨true, "Connected", some ⟨id, name, deriveNumber id⟩, none⟩

/-- The logout disconnect code of the protocol library (DisconnectReason.loggedOut
from the Baileys client, an external constant). -/
def DisconnectReason.loggedOut : Nat := 401

/-- The output sub-object of a disconnect error; statusCode may be absent. -/
structure ErrorOutput where
  statusCode : Option Nat
deriving Repr, DecidableEq

/-- The error carried by a lastDisconnect value; output may be absent. -/
structure DisconnectError where
  output : Option ErrorOutput
deriving Repr, DecidableEq

/-- The lastDisconnect field of a connection update; error may be absent. -/
structure LastDisconnect where
  error : Option DisconnectError
deriving Repr, DecidableEq

/-- The optionally-chained status-code read of src/index.js line 132: the error
and its nested fields are optional, but the lastDisconnect value itself is
accessed without a guard, so this function only applies once it exists. -/
def statusCodeOf (ld : LastDisconnect) : Option Nat :=
  ld.error.bind fun e => e.output.bind fun o => o.statusCode

/-- Effects the close branch can emit: a status publication over socket.io,
a reconnect timer, the session-file purge, and the delayed process exit. -/
inductive CloseEffect where
  | publishStatus (s : ConnectionStatus)
  | scheduleReconnect (delayMs : Nat)
  | purgeSession
  | scheduleExit (delayMs : Nat)
deriving Repr, DecidableEq

/-- Number of reconnect timers in an effect trace. -/
def countReconnects (effects : List CloseEffect) : Nat :=
  (effects.filter fun e =>
    match e with
    | .scheduleReconnect _ => true
    | _ => false).length

/-- Embed of handleLogoutAndRestart (src/index.js lines 76-85): patch the status
record, broadcast it, purge the session directory, then exit after 1000 ms. -/
def handleLogoutAndRestart (connectionStatus : ConnectionStatus) :
    ConnectionStatus × List CloseEffect :=
  let s := logoutStatusUpdate connectionStatus
  (s, [.publishStatus s, .purgeSession, .scheduleExit 1000])

/-- Result of running the close branch of the connection.update handler:
the handle and flag after the branch, the status record after the branch, and
either the emitted effects or the JS TypeError raised by the unguarded
lastDisconnect access (modelled as the error case, carrying no effects). -/
structure CloseResult where
  sock : Option Unit
  isConnecting : Bool
  connectionStatus : ConnectionStatus
  outcome : Except Unit (List CloseEffect)
deriving Repr, DecidableEq

/-- Embed of the close branch of the connection.update handler (src/index.js
lines 129-143).  The handle and the isConnecting flag are cleared first; the
status-code read then dereferences lastDisconnect without a guard, so a missing
lastDisconnect throws before any reconnect or terminal path runs. -/
def closeBranch (sock : Option Unit) (isConnecting : Bool)
    (connectionStatus : ConnectionStatus) (lastDisconnect : Option LastDisconnect) :
    CloseResult :=
  match lastDisconnect with
  | none => ⟨none, false, connectionStatus, .error ()⟩
  | some ld =>
    let statusCode := statusCodeOf ld
    if statusCode ≠ some DisconnectReason.loggedOut then
      ⟨none, false, reconnectStatus,
        .ok [.publishStatus reconnectStatus, .scheduleReconnect 5000]⟩
    else
      let r := handleLogoutAndRestart connectionStatus
      ⟨none, false, r.1, .ok r.2⟩

/-- The connection-related application state touched by connectToWhatsApp. -/
structure AppConnState where
  sock : Option Unit
  connectionStatus : ConnectionStatus
  isConnecting : Bool
deriving Repr, DecidableEq

/-- Effects of a connectToWhatsApp call, in program order. -/
inductive ConnectEffect where
  | publishStatus (s : ConnectionStatus)
  | loadAuthState (dir : String)
  | fetchLatestVersion
  | makeSocket
deriving Repr, DecidableEq

/-- Embed of connectToWhatsApp up to the creation of the handle (src/index.js
lines 90-108): a no-op when a connection attempt is in flight; otherwise the
flag is set, the status replaced and broadcast, the session state loaded, a
fresh version descriptor fetched and a handle opened. -/
def connectToWhatsApp (st : AppConnState) : AppConnState × List ConnectEffect :=
  if st.isConnecting then (st, [])
  else
    (⟨some (), connectingStatus, true⟩,
     [.publishStatus connectingStatus, .loadAuthState "baileys_auth_info",
      .fetchLatestVersion, .makeSocket])

/-- The metadata stored per scheduled job (src/index.js lines 235-241); the
node-schedule job instance is modelled by whether its cancel call succeeds. -/
structure JobInfo where
  number : String
  message : String
  scheduledTime : Int
  timezone : String
  cancelOk : Bool
deriving Repr, DecidableEq

/-- Map.prototype.set on the association list modelling activeScheduledJobs. -/
def mapSet (m : List (String × JobInfo)) (k : String) (v : JobInfo) :
    List (String × JobInfo) :=
  if m.any fun p => p.1 == k then m.map fun p => if p.1 == k then (k, v) else p
  else m ++ [(k, v)]

/-- Map.prototype.delete on the association list modelling activeScheduledJobs. -/
def mapDelete (m : List (String × JobInfo)) (k : String) : List (String × JobInfo) :=
  m.filter fun p => p.1 != k

/-- Map.prototype.get on the association list modelling activeScheduledJobs. -/
def mapGet (m : List (String × JobInfo)) (k : String) : Option JobInfo :=
  (m.find? fun p => p.1 == k).map Prod.snd

/-- The per-job summary sent to clients and returned by the listing endpoint
(src/index.js lines 191-197 and 293-299). -/
structure JobSummary where
  id : String
  number : String
  message : String
  scheduledTime : Int
  timezone : String
deriving Repr, DecidableEq

/-- Embed of the job-summary projection shared by broadcastScheduledJobs and the
scheduled-messages listing (src/index.js lines 191-197). -/
def jobsData (m : List (String × JobInfo)) : List JobSummary :=
  m.map fun p => ⟨p.1, p.2.number, p.2.message, p.2.scheduledTime, p.2.timezone⟩

/-- The socket.io events the application emits. -/
inductive EmitEvent where
  | status (s : ConnectionStatus)
  | scheduledJobsUpdate (jobs : List JobSummary)
deriving Repr, DecidableEq

/-- Embed of broadcastStatus (src/index.js lines 58-60). -/
def broadcastStatus (connectionStatus : ConnectionStatus) : List EmitEvent :=
  [.status connectionStatus]

/-- Embed of broadcastScheduledJobs (src/index.js lines 190-200). -/
def broadcastScheduledJobs (jobs : List (String × JobInfo)) : List EmitEvent :=
  [.scheduledJobsUpdate (jobsData jobs)]

/-- Embed of the io connection handler (src/index.js lines 337-344): on a new
real-time client it invokes broadcastStatus only. -/
def ioConnectionHandler (connectionStatus : ConnectionStatus)
    (jobs : List (String × JobInfo)) : List EmitEvent :=
  broadcastStatus connectionStatus

/-- Outcome of the scheduling branch of the send-message route. -/
structure ScheduleOutcome where
  httpStatus : Nat
  success : Bool
  message : String
  jobs : List (String × JobInfo)
  registered : List String
  broadcasts : Nat
deriving Repr, DecidableEq

/-- Embed of the scheduling branch of the send-message route (src/index.js
lines 210-253).  zonedTimeToUtc and format are external oracles; a none result
models a throw, landing in the catch with a 500.  The registered field records
the job ids handed to the external scheduler via scheduleJob. -/
def scheduleBranch (jobs : List (String × JobInfo)) (jobId : String)
    (number message date time timezone : String)
    (zonedTimeToUtc : String → String → Option Int)
    (fmt : Int → String → Option String)
    (jobCancelOk : Bool) (now : Int) : ScheduleOutcome :=
  let dateTimeString := date ++ "T" ++ time ++ ":00"
  match zonedTimeToUtc dateTimeString timezone with
  | none =>
    ⟨500, false, "Invalid date, time, or timezone for scheduling.", jobs, [], 0⟩
  | some scheduledDate =>
    if scheduledDate < now then
      ⟨400, false, "Scheduled time is in the past.", jobs, [], 0⟩
    else
      let jobs' := mapSet jobs jobId ⟨number, message, scheduledDate, timezone, jobCancelOk⟩
      match fmt scheduledDate timezone with
      | none =>
        ⟨500, false, "Invalid date, time, or timezone for scheduling.", jobs', [jobId], 0⟩
      | some formattedDate =>
        ⟨200, true, "Message scheduled for " ++ formattedDate ++ ".", jobs', [jobId], 1⟩

/-- Outcome of the fire-time callback of a scheduled job. -/
structure FireOutcome where
  jobs : List (String × JobInfo)
  broadcasts : Nat
  loggedError : Option SendError
  propagatedError : Option SendError
deriving Repr, DecidableEq

/-- Embed of the fire-time callback registered with scheduleJob (src/index.js
lines 223-232): the sendMessage failure, if any, is logged by the catch and not
propagated, and the finally block removes the job and broadcasts once, whatever
the send outcome was. -/
def scheduledJobCallback (sendResult : Except SendError Unit)
    (jobs : List (String × JobInfo)) (jobId : String) : FireOutcome :=
  let logged := match sendResult with
    | .ok _ => none
    | .error e => some e
  ⟨mapDelete jobs jobId, 1, logged, none⟩

/-- Outcome of the cancel-schedule route. -/
structure CancelOutcome where
  httpStatus : Nat
  success : Bool
  jobs : List (String × JobInfo)
  broadcasts : Nat
deriving Repr, DecidableEq

/-- Embed of the cancel-schedule route (src/index.js lines 304-315): the entry
is removed and one broadcast issued only when the id is present and the
scheduler accepts the cancellation; otherwise a 404 with nothing changed. -/
def cancelScheduleRoute (jobs : List (String × JobInfo)) (jobId : String) :
    CancelOutcome :=
  match mapGet jobs jobId with
  | some jobInfo =>
    if jobInfo.cancelOk then ⟨200, true, mapDelete jobs jobId, 1⟩
    else ⟨404, false, jobs, 0⟩
  | none => ⟨404, false, jobs, 0⟩

/-- A connected status record used as a concrete input in witnesses. -/
def connectedDemoStatus : ConnectionStatus :=
  ⟨true, "Connected", none, none⟩

/-- A protocol-client oracle on which every recipient exists and dispatch
succeeds, used as a concrete input in witnesses. -/
def demoSock : Sock :=
  ⟨fun _ => [⟨true⟩], fun _ _ => .ok ()⟩

/-- A concrete job record used in witnesses and counterexamples. -/
def demoJob : JobInfo :=
  ⟨"15551234567", "hi", 100, "UTC", true⟩

/-- A lastDisconnect carrying the non-logout status code 440. -/
def ldConflict : LastDisconnect :=
  ⟨some ⟨some ⟨some 440⟩⟩⟩

/-- A previous status record that is connected, used in the C8 counterexample. -/
def prevConnectedStatus : ConnectionStatus :=
  ⟨true, "Connected", some ⟨"15551234567@s.whatsapp.net:2", some "A", "15551234567"⟩, none⟩

/-- Helper: after a deletion, no summary in the published job list carries the
deleted id. -/
theorem jobsData_mapDelete_all (m : List (String × JobInfo)) (k : String) :
    (jobsData (mapDelete m k)).all (fun s => s.id != k) = true := by
  simp only [jobsData, mapDelete, List.all_eq_true, List.mem_map, List.mem_filter]
  rintro s ⟨p, ⟨hp, hne⟩, rfl⟩
  simpa using hne

/-- C1: whenever the status record has connected = false, sendMessage fails with
the not-connected error whatever the handle is; and with a null handle no
dispatch ever occurs, for any status record. -/
theorem c1_sendMessage_requires_connection (sock : Option Sock)
    (st : ConnectionStatus) (number message : String) (h : st.connected = false) :
    sendMessage sock st number message = ⟨.error .notConnected, []⟩ ∧
    ∀ st' : ConnectionStatus,
      sendMessage none st' number message = ⟨.error .notConnected, []⟩ := by
  constructor
  · cases sock with
    | none => rfl
    | some s => simp [sendMessage, h]
  · intro st'
    rfl

/-- Witness for C1 at a concrete disconnected status and non-null handle. -/
theorem c1_witness :
    sendMessage (some demoSock) initialStatus "15551234567" "hi" =
      ⟨.error .notConnected, []⟩ :=
  (c1_sendMessage_requires_connection (some demoSock) initialStatus
    "15551234567" "hi" rfl).1

/-- C2: on a close event carrying a lastDisconnect, a non-logout status code
publishes the disconnected reconnect status and schedules exactly one reconnect
after 5000 ms, while the logout code takes the terminal path (patched status
published, session purged, exit after 1000 ms) and schedules no reconnect. -/
theorem c2_close_reconnect_or_terminal (sock : Option Unit) (isConn : Bool)
    (prev : ConnectionStatus) (ld : LastDisconnect) :
    (statusCodeOf ld ≠ some DisconnectReason.loggedOut →
      closeBranch sock isConn prev (some ld) =
        ⟨none, false, reconnectStatus,
          .ok [.publishStatus reconnectStatus, .scheduleReconnect 5000]⟩ ∧
      reconnectStatus.connected = false ∧
      countReconnects [.publishStatus reconnectStatus, .scheduleReconnect 5000] = 1) ∧
    (statusCodeOf ld = some DisconnectReason.loggedOut →
      closeBranch sock isConn prev (some ld) =
        ⟨none, false, logoutStatusUpdate prev,
          .ok [.publishStatus (logoutStatusUpdate prev), .purgeSession,
               .scheduleExit 1000]⟩ ∧
      countReconnects [.publishStatus (logoutStatusUpdate prev), .purgeSession,
                       .scheduleExit 1000] = 0) := by
  constructor
  · intro h
    refine ⟨?_, rfl, rfl⟩
    simp [closeBranch, h]
  · intro h
    refine ⟨?_, rfl⟩
    simp [closeBranch, h, handleLogoutAndRestart]

/-- Witness for C2 at the concrete non-logout status code 440. -/
theorem c2_witness :
    closeBranch (some ()) true initialStatus (some ldConflict) =
      ⟨none, false, reconnectStatus,
        .ok [.publishStatus reconnectStatus, .scheduleReconnect 5000]⟩ :=
  ((c2_close_reconnect_or_terminal (some ()) true initialStatus ldConflict).1
    (by decide)).1

/-- C3: a schedule request whose date/time/timezone resolve to an instant
strictly before now is rejected with a 400, the in-memory map is unchanged, no
job is registered with the external scheduler and no broadcast is issued. -/
theorem c3_past_schedule_rejected (jobs : List (String × JobInfo))
    (jobId number message date time timezone : String)
    (ztu : String → String → Option Int) (fmt : Int → String → Option String)
    (cancelOk : Bool) (now d : Int)
    (hp : ztu (date ++ "T" ++ time ++ ":00") timezone = some d) (hlt : d < now) :
    scheduleBranch jobs jobId number message date time timezone ztu fmt cancelOk now =
      ⟨400, false, "Scheduled time is in the past.", jobs, [], 0⟩ := by
  simp [scheduleBranch, hp, hlt]

/-- Witness for C3 at a concrete resolved instant 0 strictly before now = 5. -/
theorem c3_witness :
    scheduleBranch [] "job-1" "15551234567" "hi" "2020-01-01" "09:00"
      "America/New_York" (fun _ _ => some 0) (fun _ _ => some "x") true 5 =
      ⟨400, false, "Scheduled time is in the past.", [], [], 0⟩ :=
  c3_past_schedule_rejected [] "job-1" "15551234567" "hi" "2020-01-01" "09:00"
    "America/New_York" (fun _ _ => some 0) (fun _ _ => some "x") true 5 0 rfl
    (by decide)

/-- C4: after the fire-time callback runs, whatever the send outcome was, the
job id is absent from the published list, exactly one broadcast follows, and no
failure propagates; and after a successful cancellation the id is likewise
absent and exactly one broadcast follows. -/
theorem c4_fire_or_cancel_removes_and_broadcasts
    (sendResult : Except SendError Unit) (jobs : List (String × JobInfo))
    (jobId : String) :
    ((jobsData (scheduledJobCallback sendResult jobs jobId).jobs).all
        (fun s => s.id != jobId) = true ∧
      (scheduledJobCallback sendResult jobs jobId).broadcasts = 1 ∧
      (scheduledJobCallback sendResult jobs jobId).propagatedError = none) ∧
    (∀ j : JobInfo, mapGet jobs jobId = some j → j.cancelOk = true →
      (jobsData (cancelScheduleRoute jobs jobId).jobs).all
        (fun s => s.id != jobId) = true ∧
      (cancelScheduleRoute jobs jobId).broadcasts = 1) := by
  constructor
  · exact ⟨jobsData_mapDelete_all jobs jobId, rfl, rfl⟩
  · intro j hj hc
    have hroute : cancelScheduleRoute jobs jobId = ⟨200, true, mapDelete jobs jobId, 1⟩ := by
      simp [cancelScheduleRoute, hj, hc]
    rw [hroute]
    exact ⟨jobsData_mapDelete_all jobs jobId, rfl⟩

/-- Witness for C4 at a concrete one-job registry whose cancellation succeeds. -/
theorem c4_witness :
    mapGet [("job-1", demoJob)] "job-1" = some demoJob ∧
    (jobsData (cancelScheduleRoute [("job-1", demoJob)] "job-1").jobs).all
      (fun s => s.id != "job-1") = true ∧
    (cancelScheduleRoute [("job-1", demoJob)] "job-1").broadcasts = 1 :=
  ⟨rfl,
   (c4_fire_or_cancel_removes_and_broadcasts (.ok ()) [("job-1", demoJob)]
     "job-1").2 demoJob rfl rfl⟩

/-- C5: cancelling an id that is absent from the registry, or one whose
underlying scheduler cancel call is refused, yields a 404 with the registry
unchanged and no broadcast. -/
theorem c5_cancel_unknown_is_notfound (jobs : List (String × JobInfo))
    (jobId : String)
    (h : mapGet jobs jobId = none ∨
         ∃ j : JobInfo, mapGet jobs jobId = some j ∧ j.cancelOk = false) :
    cancelScheduleRoute jobs jobId = ⟨404, false, jobs, 0⟩ := by
  rcases h with h | ⟨j, hj, hc⟩
  · simp [cancelScheduleRoute, h]
  · simp [cancelScheduleRoute, hj, hc]

/-- Witness for C5 at a concrete absent job id. -/
theorem c5_witness :
    cancelScheduleRoute [("job-1", demoJob)] "does-not-exist" =
      ⟨404, false, [("job-1", demoJob)], 0⟩ :=
  c5_cancel_unknown_is_notfound [("job-1", demoJob)] "does-not-exist"
    (Or.inl rfl)

/-- C6: while connected, a recipient reported existing yields exactly one
dispatch with the normalized JID; a recipient reported absent fails with the
unknown-recipient error and no dispatch; and the normalization leaves a number
already mentioning the domain unchanged, suffixing it otherwise. -/
theorem c6_sendMessage_dispatches_normalized (s : Sock) (st : ConnectionStatus)
    (number message : String) (hc : st.connected = true) :
    (((s.onWhatsApp (toJid number)).head?.map WaQueryResult.waExists = some true) →
      (sendMessage (some s) st number message).dispatches =
        [⟨toJid number, message⟩]) ∧
    (((s.onWhatsApp (toJid number)).head?.map WaQueryResult.waExists ≠ some true) →
      sendMessage (some s) st number message =
        ⟨.error (.unknownRecipient number), []⟩) ∧
    (includesWaDomain number = true → toJid number = number) ∧
    (includesWaDomain number = false →
      toJid number = number ++ "@s.whatsapp.net") := by
  refine ⟨?_, ?_, ?_, ?_⟩
  · intro h
    cases hr : (s.onWhatsApp (toJid number)).head? with
    | none =>
      rw [hr] at h
      exact absurd h (by simp)
    | some r =>
      rw [hr] at h
      have hw : r.waExists = true := by simpa using h
      simp only [sendMessage, hc, hr, hw, Bool.not_true, Bool.false_eq_true, if_false]
      cases s.dispatchResult (toJid number) message <;> rfl
  · intro h
    cases hr : (s.onWhatsApp (toJid number)).head? with
    | none => simp [sendMessage, hc, hr]
    | some r =>
      rw [hr] at h
      have hw : r.waExists = false := by simpa using h
      simp [sendMessage, hc, hr, hw]
  · intro h
    simp [toJid, h]
  · intro h
    simp [toJid, h]

/-- Witness for C6 at a concrete connected status, existing recipient and bare
number, checking the dispatched JID carries the appended domain. -/
theorem c6_witness :
    (sendMessage (some demoSock) connectedDemoStatus "15551234567" "hi").dispatches =
      [⟨"15551234567@s.whatsapp.net", "hi"⟩] :=
  (((c6_sendMessage_dispatches_normalized demoSock connectedDemoStatus
      "15551234567" "hi" rfl).1 rfl).trans (by decide))

/-- C7 counterexample: on a new real-time client connection with a non-empty
registry, the handler emits only the status event; the scheduled-jobs update it
would have to push is not among the emitted events. -/
theorem c7_counterexample :
    ioConnectionHandler initialStatus [("job-1", demoJob)] =
      [.status initialStatus] ∧
    EmitEvent.scheduledJobsUpdate (jobsData [("job-1", demoJob)]) ∉
      ioConnectionHandler initialStatus [("job-1", demoJob)] := by
  refine ⟨rfl, ?_⟩
  decide

/-- C7 amended: on each new real-time client connection, the handler pushes the
current ConnectionStatus only; the job list is not pushed as initial sync. -/
theorem c7_initial_sync_pushes_status_only (connectionStatus : ConnectionStatus)
    (jobs : List (String × JobInfo)) :
    ioConnectionHandler connectionStatus jobs = [.status connectionStatus] :=
  rfl

/-- C8 counterexample: the logout transition patches the previous record: its
result inherits the previous connected flag and user, so two different previous
records give two different results, and from a connected record the patched
status still claims connected = true. -/
theorem c8_counterexample :
    logoutStatusUpdate prevConnectedStatus ≠ logoutStatusUpdate initialStatus ∧
    (logoutStatusUpdate prevConnectedStatus).connected = true ∧
    (logoutStatusUpdate prevConnectedStatus).user = prevConnectedStatus.user := by
  refine ⟨?_, rfl, rfl⟩
  decide

/-- C8 amended: the connecting, QR-received, reconnecting and open transitions
assign every field of a fresh record, but the logout/restart update and the
QR-generation-error update patch the previous record, keeping its connected
flag and user (and, for the QR error, its qr field). -/
theorem c8_status_update_shapes (prev : ConnectionStatus) (url id : String)
    (name : Option String) :
    connectingStatus = ⟨false, "Connecting to WhatsApp...", none, none⟩ ∧
    qrSuccessStatus url = ⟨false, "QR code received. Please scan.", none, some url⟩ ∧
    reconnectStatus = ⟨false, "Connection lost. Reconnecting...", none, none⟩ ∧
    openStatus id name = ⟨true, "Connected", some ⟨id, name, deriveNumber id⟩, none⟩ ∧
    logoutStatusUpdate prev =
      ⟨prev.connected, "Session ended. Restarting...", prev.user, none⟩ ∧
    qrErrorUpdate prev =
      ⟨prev.connected, "Error generating QR code.", prev.user, prev.qr⟩ :=
  ⟨rfl, rfl, rfl, rfl, rfl, rfl⟩

/-- C9: a connect call while an attempt is in flight returns with the state
untouched and no effects at all (in particular the session store is not read);
otherwise it sets the flag, replaces and publishes the connecting status, loads
the session state, fetches a version descriptor and opens a handle. -/
theorem c9_connect_inflight_guard (st : AppConnState) :
    (st.isConnecting = true → connectToWhatsApp st = (st, [])) ∧
    (st.isConnecting = false →
      connectToWhatsApp st =
        (⟨some (), connectingStatus, true⟩,
         [.publishStatus connectingStatus, .loadAuthState "baileys_auth_info",
          .fetchLatestVersion, .makeSocket])) := by
  constructor <;> intro h <;> simp [connectToWhatsApp, h]

/-- Witness for C9 at a concrete in-flight state. -/
theorem c9_witness :
    connectToWhatsApp ⟨some (), initialStatus, true⟩ =
      (⟨some (), initialStatus, true⟩, []) :=
  (c9_connect_inflight_guard ⟨some (), initialStatus, true⟩).1 rfl

/-- C10: the close branch clears the handle and the flag first, but its
status-code read dereferences lastDisconnect without a guard: a close event
without a lastDisconnect throws, with the status untouched and no reconnect or
terminal effect emitted, while any close event carrying one never throws. -/
theorem c10_close_requires_lastDisconnect (sock : Option Unit) (isConn : Bool)
    (prev : ConnectionStatus) :
    (closeBranch sock isConn prev none).outcome = .error () ∧
    (closeBranch sock isConn prev none).sock = none ∧
    (closeBranch sock isConn prev none).isConnecting = false ∧
    (closeBranch sock isConn prev none).connectionStatus = prev ∧
    ∀ ld : LastDisconnect,
      (closeBranch sock isConn prev (some ld)).outcome ≠ .error () := by
  refine ⟨rfl, rfl, rfl, rfl, ?_⟩
  intro ld
  simp only [closeBranch]
  split <;> simp

end Wapp
